import Mathlib

/-!
Shallow embedding of the xfollow follow-queue engine and its storage layer.

Sources embedded:
- src/utils/storage.ts   : persisted records and the daily-stats rollover
- src/utils/followQueue.ts : the FollowQueue class (state, methods, process loop)
- src/entrypoints/content.ts : engine construction and rehydration on page load

The engine is modelled as a state machine.  The fields of `FollowQueue`
mirror the class fields one for one; the extra fields are model
bookkeeping: `nextTimerId` gives each `setTimeout` call a fresh handle,
`phase` records the suspension point at which the most recently launched
`process()` loop instance is parked (`parked` records older instances
that still coexist after a re-`start()`), `store` carries the persisted
browser storage the methods write through to, and `orphanedResume` /
`orphanedDaily` record timeouts whose handle variable was overwritten
without `clearTimeout` (followQueue.ts lines 111 and 179 assign
`this.resumeTimer` without clearing the previous handle): such a timeout
stays scheduled in the runtime, unreachable by `stop()`, and still fires.

Asynchronous resumptions (a task's `onExecute` promise settling, a
`setTimeout` callback running, an anonymous sleep finishing) are delivered
as `Event`s; `stepO` returns `none` when the event cannot occur in the
given state (e.g. a cancelled timer firing).  The synchronous code between
two suspension points runs atomically in one step, which matches the
single-threaded event-loop execution of the source.
-/

/-- Queue status union type (src/utils/followQueue.ts line 6). -/
inductive QueueStatus
  | idle
  | running
  | paused
  | stopped
  | rate_limited
  | daily_limit_reached
deriving DecidableEq, Repr

/-- Daily follow counter for one calendar day (src/utils/storage.ts). -/
structure DailyFollowStats where
  date : String
  count : Nat
deriving DecidableEq, Repr

/-- Persisted daily stats: current day plus capped history (storage.ts). -/
structure DailyStatsHistory where
  today : DailyFollowStats
  history : List DailyFollowStats
deriving DecidableEq, Repr

/-- Persisted daily-limit record (storage.ts). -/
structure DailyLimitState where
  isLimited : Bool
  limitReachedAt : Option Nat
deriving DecidableEq, Repr

/-- Persisted rate-limit cooldown record (storage.ts). -/
structure RateLimitState where
  pauseUntil : Nat
  successSinceLastPause : Nat
deriving DecidableEq, Repr

/-- The browser.storage.local keys the engine reads and writes. -/
structure Store where
  rateLimitState : Option RateLimitState
  dailyStats : Option DailyStatsHistory
  dailyLimitState : Option DailyLimitState
deriving DecidableEq, Repr

/-- Rollover-on-read of the daily stats (storage.ts lines 133-156).  The
current local date string is passed explicitly.  `List.rtake l 30` is
`l.drop (l.length - 30)`, the translation of `slice(-30)`. -/
def getDailyStats (saved : Option DailyStatsHistory) (today : String) :
    DailyStatsHistory :=
  match saved with
  | none => { today := { date := today, count := 0 }, history := [] }
  | some savedStats =>
    if savedStats.today.date = today then savedStats
    else
      { today := { date := today, count := 0 },
        history := (savedStats.history ++ [savedStats.today]).rtake 30 }

/-- Increment of the persisted daily count (storage.ts lines 158-174).
The function re-checks the date on the value returned by `getDailyStats`
exactly as the source does. -/
def incrementDailyFollowCount (st : Store) (today : String) : Store :=
  let stats := getDailyStats st.dailyStats today
  let stats :=
    if stats.today.date ≠ today then
      { today := { date := today, count := 0 },
        history := (stats.history ++ [stats.today]).rtake 30 }
    else stats
  { st with
      dailyStats := some
        { stats with today := { stats.today with count := stats.today.count + 1 } } }

/-- Startup check of the daily stats (storage.ts lines 201-217).  It reads
the rolled view from `getDailyStats` and re-checks its date, exactly as
the source does. -/
def checkAndResetDailyStats (st : Store) (today : String) : Store :=
  let stats := getDailyStats st.dailyStats today
  if stats.today.date ≠ today then
    { st with
        dailyStats := some
          { today := { date := today, count := 0 },
            history := (stats.history ++ [stats.today]).rtake 30 },
        dailyLimitState := none }
  else st

/-- Outcome of an awaited task execution: its injected `onExecute` promise
resolved `true`, resolved `false`, or rejected (the action threw). -/
inductive TaskOutcome
  | success
  | failure
  | threw
deriving DecidableEq, Repr

/-- A queued follow task.  The `onExecute` closure is external; the value
it settles with is delivered by a `taskResolved` event. -/
structure FollowTask where
  handle : String
deriving DecidableEq, Repr

/-- Which callback a pending `resumeTimer` holds: the cooldown wait inside
the processing loop (followQueue.ts lines 178-183) or the rehydration wait
inside `enterRateLimitState` (lines 110-118). -/
inductive ResumeKind
  | loopWait
  | rehydrate
deriving DecidableEq, Repr

/-- A pending `setTimeout` handle: a fresh id and the absolute time the
callback becomes runnable (scheduling time plus delay). -/
structure TimerRef where
  id : Nat
  fireAt : Nat
deriving DecidableEq, Repr

/-- The suspension point at which a `process()` loop instance is parked.
`noLoop` means no loop instance is active. -/
inductive LoopPhase
  | noLoop
  | awaitingTask (t : FollowTask)
  | idleSleep
  | interDelay
  | inCooldownWait
  | inDailyWait
deriving DecidableEq, Repr

/-- Wall-clock snapshot delivered with each resumption: `Date.now()`, the
local `YYYY-MM-DD` date string, and the next-midnight timestamp that
`getMidnightTimestamp()` would return at that moment. -/
structure Clock where
  now : Nat
  today : String
  midnight : Nat
deriving DecidableEq, Repr

/-- The FollowQueue class state (followQueue.ts lines 13-29) together with
the model bookkeeping fields described in the file header. -/
structure FollowQueue where
  queue : List FollowTask
  status : QueueStatus
  processedCount : Nat
  successCount : Nat
  successSinceLastPause : Nat
  resumeTimer : Option (TimerRef × ResumeKind)
  pauseUntil : Option Nat
  todayFollowCount : Nat
  dailyLimitTimer : Option TimerRef
  minDelay : Nat
  maxDelay : Nat
  pauseThreshold : Nat
  pauseDuration : Nat
  dailyLimit : Nat
  nextTimerId : Nat
  phase : LoopPhase
  parked : List LoopPhase
  orphanedResume : List (TimerRef × ResumeKind)
  orphanedDaily : List TimerRef
  store : Store
deriving DecidableEq, Repr

/-- Constructor options object (followQueue.ts line 31); every field is
optional. -/
structure FollowQueueOptions where
  minDelay : Option Nat := none
  maxDelay : Option Nat := none
  rateLimitThreshold : Option Nat := none
  rateLimitDuration : Option Nat := none
  dailyFollowLimit : Option Nat := none
deriving DecidableEq, Repr

/-- One `if (options?.x) this.y = options.x` line of the constructor:
the option is applied only when present and truthy (0 is falsy in JS). -/
def applyOption (current : Nat) (o : Option Nat) : Nat :=
  match o with
  | some v => if v != 0 then v else current
  | none => current

/-- The FollowQueue constructor (followQueue.ts lines 31-37) over an
ambient persisted store. -/
def FollowQueue.init (options : FollowQueueOptions) (st : Store) : FollowQueue :=
  { queue := []
    status := .idle
    processedCount := 0
    successCount := 0
    successSinceLastPause := 0
    resumeTimer := none
    pauseUntil := none
    todayFollowCount := 0
    dailyLimitTimer := none
    minDelay := applyOption 1000 options.minDelay
    maxDelay := applyOption 3000 options.maxDelay
    pauseThreshold := applyOption 10 options.rateLimitThreshold
    pauseDuration := applyOption 600000 options.rateLimitDuration
    dailyLimit := applyOption 100 options.dailyFollowLimit
    nextTimerId := 0
    phase := .noLoop
    parked := []
    orphanedResume := []
    orphanedDaily := []
    store := st }

/-- `add` (followQueue.ts lines 39-42): refuse a task whose handle is
already pending in the queue. -/
def FollowQueue.add (s : FollowQueue) (task : FollowTask) : FollowQueue :=
  if s.queue.any (fun t => t.handle == task.handle) then s
  else { s with queue := s.queue ++ [task] }

/-- `pause` (followQueue.ts lines 50-52). -/
def FollowQueue.pause (s : FollowQueue) : FollowQueue :=
  { s with status := .paused }

/-- `stop` (followQueue.ts lines 54-65): set status, clear the queue and
cancel both timers with `clearTimeout`. -/
def FollowQueue.stop (s : FollowQueue) : FollowQueue :=
  { s with
      status := .stopped
      queue := []
      resumeTimer := none
      dailyLimitTimer := none }

/-- Snapshot returned by `getStats` (followQueue.ts lines 67-75). -/
structure Stats where
  total : Nat
  remaining : Nat
  processed : Nat
  success : Nat
  status : QueueStatus
deriving DecidableEq, Repr

/-- `getStats` (followQueue.ts lines 67-75). -/
def FollowQueue.getStats (s : FollowQueue) : Stats :=
  { total := s.queue.length + s.processedCount
    remaining := s.queue.length
    processed := s.processedCount
    success := s.successCount
    status := s.status }

/-- `updateRateLimitConfig` (followQueue.ts lines 77-80). -/
def FollowQueue.updateRateLimitConfig (s : FollowQueue)
    (threshold duration : Nat) : FollowQueue :=
  { s with pauseThreshold := threshold, pauseDuration := duration }

/-- `resumeAfterRateLimit` (followQueue.ts lines 94-102). -/
def FollowQueue.resumeAfterRateLimit (s : FollowQueue) : FollowQueue :=
  { s with
      successSinceLastPause := 0
      status := .running
      pauseUntil := none
      resumeTimer := none }

/-- Handles lost when `this.resumeTimer` is assigned a new `setTimeout`
result without `clearTimeout` on the old one (followQueue.ts lines 111
and 179): the previously referenced timeout stays scheduled but the
program can no longer cancel it. -/
def orphaning (old : Option (TimerRef × ResumeKind))
    (acc : List (TimerRef × ResumeKind)) : List (TimerRef × ResumeKind) :=
  match old with
  | some o => o :: acc
  | none => acc

/-- Same for `this.dailyLimitTimer` (followQueue.ts line 164 assigns
without clearing). -/
def orphaningDaily (old : Option TimerRef) (acc : List TimerRef) :
    List TimerRef :=
  match old with
  | some o => o :: acc
  | none => acc

/-- `enterRateLimitState` (followQueue.ts lines 104-120): set the limited
state from the supplied record and, when the deadline is still ahead,
schedule the resume callback after `remainingMs = pauseUntil - now`.
The assignment at line 111 overwrites `this.resumeTimer` without
`clearTimeout`, so a previously armed timeout is orphaned, not
cancelled. -/
def FollowQueue.enterRateLimitState (s : FollowQueue)
    (pauseUntil successCount : Nat) (clk : Clock) : FollowQueue :=
  let s1 := { s with
      status := QueueStatus.rate_limited
      pauseUntil := some pauseUntil
      successSinceLastPause := successCount }
  if 0 < pauseUntil - clk.now then
    { s1 with
        resumeTimer := some
          (⟨s1.nextTimerId, clk.now + (pauseUntil - clk.now)⟩, ResumeKind.rehydrate)
        orphanedResume := orphaning s1.resumeTimer s1.orphanedResume
        nextTimerId := s1.nextTimerId + 1 }
  else s1

/-- `updateDailyLimit` (followQueue.ts lines 122-124). -/
def FollowQueue.updateDailyLimit (s : FollowQueue) (limit : Nat) : FollowQueue :=
  { s with dailyLimit := limit }

/-- `resumeFromDailyLimit` (followQueue.ts lines 136-143). -/
def FollowQueue.resumeFromDailyLimit (s : FollowQueue) : FollowQueue :=
  { s with
      todayFollowCount := 0
      status := .running
      dailyLimitTimer := none }

/-- Run the `process()` while loop (followQueue.ts lines 174-238) from the
top of the loop to the next suspension point, or through the loop exit at
lines 235-237.  In the `rate_limited` branch the loop schedules the
cooldown resume callback for `pauseDuration` and suspends; the assignment
at line 179 overwrites `this.resumeTimer` without `clearTimeout`, so a
previously armed timeout (e.g. a rehydration timer) is orphaned, not
cancelled. -/
def loopEnter (clk : Clock) (s : FollowQueue) : FollowQueue :=
  if s.status = QueueStatus.running ∨ s.status = QueueStatus.rate_limited then
    if s.status = QueueStatus.rate_limited then
      { s with
          resumeTimer := some
            (⟨s.nextTimerId, clk.now + s.pauseDuration⟩, ResumeKind.loopWait)
          orphanedResume := orphaning s.resumeTimer s.orphanedResume
          nextTimerId := s.nextTimerId + 1
          phase := LoopPhase.inCooldownWait }
    else
      match s.queue with
      | [] => { s with phase := LoopPhase.idleSleep }
      | t :: rest => { s with queue := rest, phase := LoopPhase.awaitingTask t }
  else if s.queue.length = 0 then
    { s with status := QueueStatus.idle, phase := LoopPhase.noLoop }
  else { s with phase := LoopPhase.noLoop }

/-- `start` (followQueue.ts lines 44-48): no-op when already running,
otherwise set `running` and launch a new `process()` loop instance
unconditionally.  The new instance becomes the one tracked by `phase`; an
instance still parked at a suspension point coexists with it, as in the
source, and is recorded in `parked` (such an instance receives no further
events in this model; no claim below depends on resuming it). -/
def FollowQueue.start (s : FollowQueue) (clk : Clock) : FollowQueue :=
  if s.status = QueueStatus.running then s
  else
    loopEnter clk
      { s with
          status := QueueStatus.running
          parked :=
            match s.phase with
            | LoopPhase.noLoop => s.parked
            | ph => ph :: s.parked }

/-- Resumption of `await task.onExecute()` (followQueue.ts lines 198-232):
the try/catch body from the settled promise to the next suspension point.
A success runs the persisted daily increment, then the daily-limit check
(entering `handleDailyLimitReached`, lines 153-172, which persists the
limit record and schedules the midnight callback), then the cooldown
threshold check (which persists the cooldown record and, via the loop
head, schedules the cooldown wait), then the inter-task delay. -/
def onTaskResolved (s : FollowQueue) (outcome : TaskOutcome) (clk : Clock) :
    FollowQueue :=
  match outcome with
  | .threw =>
    loopEnter clk { s with processedCount := s.processedCount + 1 }
  | .failure =>
    let s1 := { s with processedCount := s.processedCount + 1 }
    if 0 < s1.queue.length then { s1 with phase := LoopPhase.interDelay }
    else loopEnter clk s1
  | .success =>
    let s1 := { s with
        processedCount := s.processedCount + 1
        successCount := s.successCount + 1
        successSinceLastPause := s.successSinceLastPause + 1
        store := incrementDailyFollowCount s.store clk.today
        todayFollowCount := s.todayFollowCount + 1 }
    if s1.dailyLimit ≤ s1.todayFollowCount then
      { s1 with
          status := QueueStatus.daily_limit_reached
          store := { s1.store with
              dailyLimitState := some
                { isLimited := true, limitReachedAt := some clk.now } }
          dailyLimitTimer := some ⟨s1.nextTimerId, clk.midnight⟩
          orphanedDaily := orphaningDaily s1.dailyLimitTimer s1.orphanedDaily
          nextTimerId := s1.nextTimerId + 1
          phase := LoopPhase.inDailyWait }
    else if s1.pauseThreshold ≤ s1.successSinceLastPause then
      loopEnter clk { s1 with
          status := QueueStatus.rate_limited
          pauseUntil := some (clk.now + s1.pauseDuration)
          store := { s1.store with
              rateLimitState := some
                { pauseUntil := clk.now + s1.pauseDuration
                  successSinceLastPause := s1.successSinceLastPause } } }
    else if 0 < s1.queue.length then { s1 with phase := LoopPhase.interDelay }
    else loopEnter clk s1

/-- The rest of a resume callback after `this.resumeTimer` has been dealt
with.  For a `rehydrate` timer this is followQueue.ts lines 113-115: reset
the counter, clear the deadline, resume running (the resolved promise
returns to the caller of `enterRateLimitState`, not to the loop).  For a
`loopWait` timer the resolved promise lets the loop suspended in the
cooldown wait continue at lines 185-189: reset the counter, clear the
persisted cooldown record, resume running and re-enter the loop head. -/
def runResumeRest (kind : ResumeKind) (clk : Clock) (s : FollowQueue) :
    FollowQueue :=
  match kind with
  | .rehydrate =>
    { s with
        successSinceLastPause := 0
        pauseUntil := none
        status := QueueStatus.running }
  | .loopWait =>
    let s1 := { s with
        successSinceLastPause := 0
        store := { s.store with rateLimitState := none }
        status := QueueStatus.running }
    if s.phase = LoopPhase.inCooldownWait then loopEnter clk s1 else s1

/-- An orphaned resume timeout firing: it was overwritten, never
cancelled, so its callback still runs at its deadline.  The callback's
`this.resumeTimer = null` (line 112 or 180) nulls the handle variable,
which orphans — does not cancel — whatever live timeout that variable
currently references. -/
def fireOrphanResume (s : FollowQueue) (id : Nat) (clk : Clock) :
    Option FollowQueue :=
  match s.orphanedResume.find? (fun p => p.1.id == id) with
  | some (tr, kind) =>
    if tr.fireAt ≤ clk.now then
      some (runResumeRest kind clk
        { s with
            orphanedResume :=
              (s.orphanedResume.filter (fun p => p.1.id != id)) ++
                (match s.resumeTimer with | some o => [o] | none => [])
            resumeTimer := none })
    else none
  | none => none

/-- The rest of the `dailyLimitTimer` callback (followQueue.ts lines
165-169): reset the day counter, resume running, clear the persisted
record; the resolved promise lets `handleDailyLimitReached` return and the
loop suspended in the daily wait continue at the loop head. -/
def runDailyRest (clk : Clock) (s : FollowQueue) : FollowQueue :=
  let s1 := { s with
      todayFollowCount := 0
      status := QueueStatus.running
      store := { s.store with dailyLimitState := none } }
  if s.phase = LoopPhase.inDailyWait then loopEnter clk s1 else s1

/-- An orphaned daily timeout firing; its `this.dailyLimitTimer = null`
orphans any live handle currently stored in the variable. -/
def fireOrphanDaily (s : FollowQueue) (id : Nat) (clk : Clock) :
    Option FollowQueue :=
  match s.orphanedDaily.find? (fun tr => tr.id == id) with
  | some tr =>
    if tr.fireAt ≤ clk.now then
      some (runDailyRest clk
        { s with
            orphanedDaily :=
              (s.orphanedDaily.filter (fun tr2 => tr2.id != id)) ++
                (match s.dailyLimitTimer with | some o => [o] | none => [])
            dailyLimitTimer := none })
    else none
  | none => none

/-- The `dailyLimitTimer` callback (followQueue.ts lines 164-170) firing
from the currently referenced handle, or an orphaned daily timeout
firing. -/
def fireDailyTimer (s : FollowQueue) (id : Nat) (clk : Clock) :
    Option FollowQueue :=
  match s.dailyLimitTimer with
  | some tr =>
    if tr.id = id then
      if tr.fireAt ≤ clk.now then
        some (runDailyRest clk { s with dailyLimitTimer := none })
      else none
    else fireOrphanDaily s id clk
  | none => fireOrphanDaily s id clk

/-- A `setTimeout` callback with handle `id` firing.  A handle cleared
with `clearTimeout` can never fire, but an overwritten handle still can:
after the currently referenced resume handle, the orphaned resume
timeouts and then the daily timeouts are consulted.  Returns `none` when
no scheduled, uncancelled timeout has this handle (or its delay has not
elapsed). -/
def onTimerFired (s : FollowQueue) (id : Nat) (clk : Clock) :
    Option FollowQueue :=
  match s.resumeTimer with
  | some (tr, kind) =>
    if tr.id = id then
      if tr.fireAt ≤ clk.now then
        some (runResumeRest kind clk { s with resumeTimer := none })
      else none
    else
      match fireOrphanResume s id clk with
      | some s2 => some s2
      | none => fireDailyTimer s id clk
  | none =>
    match fireOrphanResume s id clk with
    | some s2 => some s2
    | none => fireDailyTimer s id clk

/-- An event the engine can react to: a public method call, a task promise
settling, a tracked timer callback, or an anonymous sleep finishing. -/
inductive Event
  | add (task : FollowTask)
  | callStart (clk : Clock)
  | callPause
  | callStop
  | callEnterRateLimit (pauseUntil successCount : Nat) (clk : Clock)
  | callResumeAfterRateLimit
  | callResumeFromDailyLimit
  | callUpdateRateLimitConfig (threshold duration : Nat)
  | callUpdateDailyLimit (limit : Nat)
  | taskResolved (outcome : TaskOutcome) (clk : Clock)
  | timerFired (id : Nat) (clk : Clock)
  | wake (clk : Clock)
deriving DecidableEq, Repr

/-- One atomic step of the engine; `none` when the event cannot occur in
this state (no task in flight, cancelled timer, no sleeping loop). -/
def stepO (s : FollowQueue) : Event → Option FollowQueue
  | .add task => some (s.add task)
  | .callStart clk => some (s.start clk)
  | .callPause => some s.pause
  | .callStop => some s.stop
  | .callEnterRateLimit pu sc clk => some (s.enterRateLimitState pu sc clk)
  | .callResumeAfterRateLimit => some s.resumeAfterRateLimit
  | .callResumeFromDailyLimit => some s.resumeFromDailyLimit
  | .callUpdateRateLimitConfig t d => some (s.updateRateLimitConfig t d)
  | .callUpdateDailyLimit l => some (s.updateDailyLimit l)
  | .taskResolved outcome clk =>
    match s.phase with
    | .awaitingTask _ => some (onTaskResolved s outcome clk)
    | _ => none
  | .timerFired id clk => onTimerFired s id clk
  | .wake clk =>
    match s.phase with
    | .idleSleep => some (loopEnter clk s)
    | .interDelay => some (loopEnter clk s)
    | _ => none

/-- Run a sequence of events, failing if any of them is not enabled. -/
def runO (s : FollowQueue) (es : List Event) : Option FollowQueue :=
  es.foldlM stepO s

/-- The persisted settings object (storage.ts lines 7-23). -/
structure Settings where
  minDelay : Nat
  maxDelay : Nat
  skipFollowed : Bool
  rateLimitThreshold : Nat
  rateLimitDuration : Nat
  dailyFollowLimit : Nat
deriving DecidableEq, Repr

/-- Engine construction and rehydration performed by the content script on
page load (src/entrypoints/content.ts lines 167-195): construct the queue
from the settings, re-enter a still-pending cooldown (or clear an expired
record), run the daily-stats startup check, and, when the persisted
daily-limit record is set, call `updateDailyLimit`. -/
def initOnReload (settings : Settings) (st : Store) (clk : Clock) :
    FollowQueue :=
  let q := FollowQueue.init
    { minDelay := some settings.minDelay
      maxDelay := some settings.maxDelay
      rateLimitThreshold := some settings.rateLimitThreshold
      rateLimitDuration := some settings.rateLimitDuration
      dailyFollowLimit := some settings.dailyFollowLimit } st
  let q :=
    match q.store.rateLimitState with
    | some rl =>
      if clk.now < rl.pauseUntil then
        (q.updateRateLimitConfig settings.rateLimitThreshold
            settings.rateLimitDuration).enterRateLimitState
          rl.pauseUntil rl.successSinceLastPause clk
      else { q with store := { q.store with rateLimitState := none } }
    | none => q
  let q := { q with store := checkAndResetDailyStats q.store clk.today }
  match q.store.dailyLimitState with
  | some dl =>
    if dl.isLimited then q.updateDailyLimit settings.dailyFollowLimit else q
  | none => q

/-- Fresh-install persisted store: every key absent. -/
def emptyStore : Store :=
  { rateLimitState := none, dailyStats := none, dailyLimitState := none }

/-- An engine built with an empty options object over an empty store. -/
def defaultEngine : FollowQueue := FollowQueue.init {} emptyStore

/-- First calendar day used by the concrete runs. -/
def dayOne : String := "2026-10-12"

/-- Second calendar day used by the concrete runs. -/
def dayTwo : String := "2026-10-13"

/-- A clock during the first day, well before its midnight. -/
def clockDay1 : Clock := { now := 1000, today := dayOne, midnight := 500000 }

/-- A later clock still inside the first day. -/
def clockDay1b : Clock := { now := 2000, today := dayOne, midnight := 500000 }

/-- A clock just after the first day's midnight. -/
def clockDay2 : Clock := { now := 600000, today := dayTwo, midnight := 900000 }

/-- Engine configured with `rateLimitThreshold = 1` and
`dailyFollowLimit = 1` over a fresh store. -/
def tightEngine : FollowQueue :=
  FollowQueue.init
    { rateLimitThreshold := some 1, dailyFollowLimit := some 1 } emptyStore

/-- Two tasks enqueued, the engine started, and the first task succeeding:
after this prefix exactly one consecutive success has happened since the
last cooldown reset (there has been none), matching the threshold 1. -/
def tightRunPrefix : List Event :=
  [Event.add ⟨"alice"⟩, Event.add ⟨"bob"⟩, Event.callStart clockDay1,
   Event.taskResolved TaskOutcome.success clockDay1]

/-- The same run continued across the midnight callback (timer id 0) with
one further success: the very next success after the threshold was met. -/
def tightRunFull : List Event :=
  tightRunPrefix ++
    [Event.timerFired 0 clockDay2, Event.taskResolved TaskOutcome.success clockDay2]

/-- A mid-run engine state: the loop is awaiting a task, the cooldown
counter sits exactly at the threshold, both timers are clear. -/
def demoAwait : FollowQueue :=
  { queue := [⟨"carol"⟩]
    status := .running
    processedCount := 4
    successCount := 5
    successSinceLastPause := 2
    resumeTimer := none
    pauseUntil := none
    todayFollowCount := 3
    dailyLimitTimer := none
    minDelay := 1000
    maxDelay := 3000
    pauseThreshold := 2
    pauseDuration := 600000
    dailyLimit := 100
    nextTimerId := 7
    phase := .awaitingTask ⟨"bob"⟩
    parked := []
    orphanedResume := []
    orphanedDaily := []
    store := emptyStore }

/-- `demoAwait` one success short of its daily limit of 100. -/
def demoAwaitFull : FollowQueue := { demoAwait with todayFollowCount := 99 }

/-- Engine built with `rateLimitThreshold = 1` over a fresh store (daily
limit at its default 100). -/
def thresholdOneEngine : FollowQueue :=
  FollowQueue.init { rateLimitThreshold := some 1 } emptyStore

/-- Clocks of the orphaned-timer run, all inside day one (midnight at
900000): rehydration at 1000, the first success at 2000, and the
rehydrated cooldown deadline 700000. -/
def clockT1 : Clock := { now := 1000, today := dayOne, midnight := 900000 }

/-- Clock of the threshold-crossing success. -/
def clockT2 : Clock := { now := 2000, today := dayOne, midnight := 900000 }

/-- Clock at the rehydrated cooldown deadline. -/
def clockT3 : Clock := { now := 700000, today := dayOne, midnight := 900000 }

/-- The orphaned-timer run: rehydrate a pending cooldown with deadline
700000 (arming the rehydration callback as timer id 0), enqueue a task
and start; its success re-crosses the threshold 1, so the loop's cooldown
branch overwrites `this.resumeTimer` with timer id 1 without clearing
timer id 0; then `stop()`; then timer id 0 reaches its deadline. -/
def orphanTrace : List Event :=
  [Event.callEnterRateLimit 700000 0 clockT1,
   Event.add ⟨"alice"⟩,
   Event.callStart clockT1,
   Event.taskResolved TaskOutcome.success clockT2,
   Event.callStop,
   Event.timerFired 0 clockT3]

/-- Settings with a daily follow limit of 1 (all other fields default). -/
def demoSettings : Settings :=
  { minDelay := 1500, maxDelay := 4000, skipFollowed := true
    rateLimitThreshold := 10, rateLimitDuration := 600000
    dailyFollowLimit := 1 }

/-- First page session: enqueue one task, start, the task succeeds. -/
def session1Events : List Event :=
  [Event.add ⟨"alice"⟩, Event.callStart clockDay1,
   Event.taskResolved TaskOutcome.success clockDay1]

/-- The persisted store left behind by the first session: one success
recorded for day one and the daily-limit record set. -/
def storeAfterSession1 : Store :=
  { rateLimitState := none
    dailyStats := some { today := { date := dayOne, count := 1 }, history := [] }
    dailyLimitState := some { isLimited := true, limitReachedAt := some 1000 } }

/-- Second page session, same calendar day after a reload: enqueue another
task, start, and that task also succeeds. -/
def session2Events : List Event :=
  [Event.add ⟨"bob"⟩, Event.callStart clockDay1b,
   Event.taskResolved TaskOutcome.success clockDay1b]

/-- Every constructor option passed as 0. -/
def allZeroOptions : FollowQueueOptions :=
  { minDelay := some 0, maxDelay := some 0, rateLimitThreshold := some 0
    rateLimitDuration := some 0, dailyFollowLimit := some 0 }

/-- One day-boundary rollover of a stored daily-stats record, as performed
on every read (storage.ts lines 133-156). -/
def rollStored (s : DailyStatsHistory) (d : String) : DailyStatsHistory :=
  getDailyStats (some s) d

/-- A stored record for an initial day with a nonzero count. -/
def statsStart : DailyStatsHistory :=
  { today := { date := "start", count := 5 }, history := [] }

/-- Thirty-one pairwise distinct date strings. -/
def manyDates : List String := (List.range 31).map (fun i => toString i)


/-- Helper: the record returned by `getDailyStats` is always dated today. -/
theorem getDailyStats_date (saved : Option DailyStatsHistory) (d : String) :
    (getDailyStats saved d).today.date = d := by
  unfold getDailyStats
  match saved with
  | none => rfl
  | some s =>
    by_cases h : s.today.date = d
    · simp [h]
    · simp [h]

/-- Helper: `checkAndResetDailyStats` never changes the store, because it
re-checks the date of the already-rolled view returned by
`getDailyStats`. -/
theorem checkAndResetDailyStats_eq (st : Store) (d : String) :
    checkAndResetDailyStats st d = st := by
  unfold checkAndResetDailyStats
  simp [getDailyStats_date]

/-- C8: daily-stats rollover is idempotent — for every stored record and
every current date, applying the rollover-on-read logic twice on the same
unchanged date yields what applying it once yields, and the startup check
`checkAndResetDailyStats` is likewise idempotent. -/
theorem rollover_idempotent (saved : Option DailyStatsHistory) (st : Store)
    (d : String) :
    getDailyStats (some (getDailyStats saved d)) d = getDailyStats saved d ∧
    checkAndResetDailyStats (checkAndResetDailyStats st d) d =
      checkAndResetDailyStats st d := by
  constructor
  · conv_lhs => rw [getDailyStats]
    simp [getDailyStats_date]
  · rw [checkAndResetDailyStats_eq, checkAndResetDailyStats_eq]

/-- C10: passing 0 for any constructor option leaves the corresponding
configuration at its built-in default, because each option is applied only
when truthy. -/
theorem constructor_zero_defaults (o : FollowQueueOptions) (st : Store) :
    (o.minDelay = some 0 → (FollowQueue.init o st).minDelay = 1000) ∧
    (o.maxDelay = some 0 → (FollowQueue.init o st).maxDelay = 3000) ∧
    (o.rateLimitThreshold = some 0 →
      (FollowQueue.init o st).pauseThreshold = 10) ∧
    (o.rateLimitDuration = some 0 →
      (FollowQueue.init o st).pauseDuration = 600000) ∧
    (o.dailyFollowLimit = some 0 → (FollowQueue.init o st).dailyLimit = 100) := by
  refine ⟨fun h => ?_, fun h => ?_, fun h => ?_, fun h => ?_, fun h => ?_⟩ <;>
    simp [FollowQueue.init, applyOption, h]

/-- Witness for C10 at the all-zero options object. -/
theorem constructor_zero_defaults_witness :
    (FollowQueue.init allZeroOptions emptyStore).minDelay = 1000 ∧
    (FollowQueue.init allZeroOptions emptyStore).maxDelay = 3000 ∧
    (FollowQueue.init allZeroOptions emptyStore).pauseThreshold = 10 ∧
    (FollowQueue.init allZeroOptions emptyStore).pauseDuration = 600000 ∧
    (FollowQueue.init allZeroOptions emptyStore).dailyLimit = 100 := by
  obtain ⟨h1, h2, h3, h4, h5⟩ := constructor_zero_defaults allZeroOptions emptyStore
  exact ⟨h1 rfl, h2 rfl, h3 rfl, h4 rfl, h5 rfl⟩

/-- Helper: `add` preserves distinctness of the pending handles. -/
theorem add_nodup (s : FollowQueue) (task : FollowTask)
    (h : (s.queue.map FollowTask.handle).Nodup) :
    ((s.add task).queue.map FollowTask.handle).Nodup := by
  unfold FollowQueue.add
  split
  · exact h
  · rename_i hany
    simp only [List.any_eq_true, beq_iff_eq, not_exists, not_and] at hany
    simp only [List.map_append, List.map_cons, List.map_nil]
    rw [List.nodup_append]
    refine ⟨h, List.nodup_singleton _, ?_⟩
    intro a ha hmem
    simp only [List.mem_singleton] at hmem
    simp only [List.mem_map] at ha
    obtain ⟨x, hx, hxe⟩ := ha
    exact hany x hx (hxe.trans hmem)

/-- C4: for every sequence of enqueue calls over a queue with distinct
pending handles, the queue keeps at most one pending task per handle, and
enqueuing a task whose handle is already pending is a no-op. -/
theorem enqueue_unique (s : FollowQueue) (ts : List FollowTask)
    (h : (s.queue.map FollowTask.handle).Nodup) :
    ((ts.foldl FollowQueue.add s).queue.map FollowTask.handle).Nodup ∧
    ∀ task : FollowTask, task.handle ∈ s.queue.map FollowTask.handle →
      s.add task = s := by
  constructor
  · induction ts generalizing s with
    | nil => exact h
    | cons t ts ih => exact ih _ (add_nodup s t h)
  · intro task htask
    unfold FollowQueue.add
    rw [if_pos]
    simp only [List.any_eq_true, beq_iff_eq]
    simp only [List.mem_map] at htask
    obtain ⟨x, hx, hxe⟩ := htask
    exact ⟨x, hx, hxe⟩

/-- Witness for C4: duplicate enqueues on a fresh engine, and a duplicate
enqueue on `demoAwait` being a no-op. -/
theorem enqueue_unique_witness :
    ((([⟨"a"⟩, ⟨"b"⟩, ⟨"a"⟩] : List FollowTask).foldl FollowQueue.add
        defaultEngine).queue.map FollowTask.handle).Nodup ∧
    demoAwait.add ⟨"carol"⟩ = demoAwait :=
  ⟨(enqueue_unique defaultEngine [⟨"a"⟩, ⟨"b"⟩, ⟨"a"⟩] (by decide)).1,
   (enqueue_unique demoAwait [] (by decide)).2 ⟨"carol"⟩ (by decide)⟩

/-- Counterexample to C2 as stated: a run with `pauseThreshold = 1` in
which, after exactly one consecutive success since the last cooldown reset
(there has been none), the very next success does not transition the
status to `rate_limited`: the same success reaches the daily limit, the
daily check runs first and skips the cooldown check, so the run ends in
`daily_limit_reached` and no cooldown record is ever written. -/
theorem rate_limit_after_threshold_cex :
    (runO tightEngine tightRunPrefix).map
        (fun s => (s.status, s.successSinceLastPause, s.pauseThreshold)) =
      some (QueueStatus.daily_limit_reached, 1, 1) ∧
    (runO tightEngine tightRunFull).map
        (fun s => (s.status, s.successSinceLastPause, s.store.rateLimitState)) =
      some (QueueStatus.daily_limit_reached, 2, none) ∧
    (runO tightEngine tightRunFull).map (fun s => s.status) ≠
      some QueueStatus.rate_limited := by
  refine ⟨by decide, by decide, by decide⟩

/-- C2 (amended): with `pauseThreshold = N`, after exactly N consecutive
successes since the last cooldown reset, the very next success transitions
the status to `rate_limited` before any further task executes — provided
that success does not also reach the daily limit (the daily check runs
first and skips the cooldown check for the same success). -/
theorem rate_limit_after_threshold (s : FollowQueue) (t : FollowTask) (clk : Clock)
    (hphase : s.phase = LoopPhase.awaitingTask t)
    (hrun : s.status = QueueStatus.running)
    (hexact : s.successSinceLastPause = s.pauseThreshold)
    (hday : s.todayFollowCount + 1 < s.dailyLimit) :
    ∃ s1, stepO s (Event.taskResolved TaskOutcome.success clk) = some s1 ∧
      s1.status = QueueStatus.rate_limited ∧
      s1.pauseUntil = some (clk.now + s.pauseDuration) ∧
      ∀ outcome clk2, stepO s1 (Event.taskResolved outcome clk2) = none := by
  have hstep : stepO s (Event.taskResolved TaskOutcome.success clk) =
      some (onTaskResolved s TaskOutcome.success clk) := by
    simp only [stepO, hphase]
  refine ⟨onTaskResolved s TaskOutcome.success clk, hstep, ?_⟩
  have hrunning := hrun
  simp only [onTaskResolved, loopEnter]
  split_ifs
  all_goals try (exfalso; omega)
  all_goals try (refine ⟨?_, ?_, ?_⟩ <;> simp [stepO])
  all_goals simp_all

/-- Witness for the amended C2 at `demoAwait` (counter exactly at the
threshold 2, daily limit far away). -/
theorem rate_limit_after_threshold_witness :
    ∃ s1, stepO demoAwait (Event.taskResolved TaskOutcome.success clockDay1) =
        some s1 ∧
      s1.status = QueueStatus.rate_limited ∧
      s1.pauseUntil = some (clockDay1.now + demoAwait.pauseDuration) ∧
      ∀ outcome clk2, stepO s1 (Event.taskResolved outcome clk2) = none :=
  rate_limit_after_threshold demoAwait ⟨"bob"⟩ clockDay1 rfl rfl rfl (by decide)

/-- C6: a task whose execute function throws is caught at the loop
boundary: the loop does not terminate (the status stays `running`), the
task counts toward `processedCount`, and every success counter and the
persisted store are unchanged — exactly as for a task resolving `false`. -/
theorem thrown_counts_as_failure (s : FollowQueue) (t : FollowTask) (clk : Clock)
    (hphase : s.phase = LoopPhase.awaitingTask t)
    (hrun : s.status = QueueStatus.running) :
    ∃ s1 s2, stepO s (Event.taskResolved TaskOutcome.threw clk) = some s1 ∧
      stepO s (Event.taskResolved TaskOutcome.failure clk) = some s2 ∧
      s1.processedCount = s.processedCount + 1 ∧
      s1.successCount = s.successCount ∧
      s1.successSinceLastPause = s.successSinceLastPause ∧
      s1.todayFollowCount = s.todayFollowCount ∧
      s1.store = s.store ∧
      s1.status = QueueStatus.running ∧
      s2.processedCount = s1.processedCount ∧
      s2.successCount = s1.successCount ∧
      s2.successSinceLastPause = s1.successSinceLastPause ∧
      s2.todayFollowCount = s1.todayFollowCount ∧
      s2.store = s1.store ∧
      s2.status = s1.status := by
  refine ⟨onTaskResolved s TaskOutcome.threw clk,
    onTaskResolved s TaskOutcome.failure clk,
    by simp only [stepO, hphase], by simp only [stepO, hphase], ?_⟩
  simp only [onTaskResolved, loopEnter]
  split_ifs
  all_goals cases hq : s.queue
  all_goals simp_all

/-- Witness for C6 at `demoAwait`. -/
theorem thrown_counts_as_failure_witness :
    ∃ s1 s2,
      stepO demoAwait (Event.taskResolved TaskOutcome.threw clockDay1) = some s1 ∧
      stepO demoAwait (Event.taskResolved TaskOutcome.failure clockDay1) = some s2 ∧
      s1.processedCount = demoAwait.processedCount + 1 ∧
      s1.successCount = demoAwait.successCount ∧
      s1.successSinceLastPause = demoAwait.successSinceLastPause ∧
      s1.todayFollowCount = demoAwait.todayFollowCount ∧
      s1.store = demoAwait.store ∧
      s1.status = QueueStatus.running ∧
      s2.processedCount = s1.processedCount ∧
      s2.successCount = s1.successCount ∧
      s2.successSinceLastPause = s1.successSinceLastPause ∧
      s2.todayFollowCount = s1.todayFollowCount ∧
      s2.store = s1.store ∧
      s2.status = s1.status :=
  thrown_counts_as_failure demoAwait ⟨"bob"⟩ clockDay1 rfl rfl

/-- C7: after a successful task the daily quota is evaluated before the
cooldown threshold; when that success reaches the daily limit the status
becomes `daily_limit_reached`, the cooldown evaluation is skipped entirely
(no cooldown record written, `pauseUntil` and the cooldown timer
untouched), and processing is suspended in the daily wait. -/
theorem daily_limit_before_cooldown (s : FollowQueue) (t : FollowTask) (clk : Clock)
    (hphase : s.phase = LoopPhase.awaitingTask t)
    (hrun : s.status = QueueStatus.running)
    (hday : s.dailyLimit ≤ s.todayFollowCount + 1) :
    ∃ s1, stepO s (Event.taskResolved TaskOutcome.success clk) = some s1 ∧
      s1.status = QueueStatus.daily_limit_reached ∧
      s1.store.rateLimitState = s.store.rateLimitState ∧
      s1.pauseUntil = s.pauseUntil ∧
      s1.resumeTimer = s.resumeTimer ∧
      s1.phase = LoopPhase.inDailyWait ∧
      ∀ outcome clk2, stepO s1 (Event.taskResolved outcome clk2) = none := by
  refine ⟨onTaskResolved s TaskOutcome.success clk, by simp only [stepO, hphase], ?_⟩
  simp only [onTaskResolved, loopEnter]
  split_ifs
  all_goals try (exfalso; omega)
  refine ⟨rfl, ?_, rfl, rfl, rfl, fun outcome clk2 => by simp [stepO]⟩
  simp [incrementDailyFollowCount]

/-- Witness for C7 at `demoAwaitFull`, where the same success also crosses
the cooldown threshold yet only the daily limit is entered. -/
theorem daily_limit_before_cooldown_witness :
    ∃ s1, stepO demoAwaitFull (Event.taskResolved TaskOutcome.success clockDay1) =
        some s1 ∧
      s1.status = QueueStatus.daily_limit_reached ∧
      s1.store.rateLimitState = demoAwaitFull.store.rateLimitState ∧
      s1.pauseUntil = demoAwaitFull.pauseUntil ∧
      s1.resumeTimer = demoAwaitFull.resumeTimer ∧
      s1.phase = LoopPhase.inDailyWait ∧
      ∀ outcome clk2, stepO s1 (Event.taskResolved outcome clk2) = none :=
  daily_limit_before_cooldown demoAwaitFull ⟨"bob"⟩ clockDay1 rfl rfl (by decide)

/-- C5: `enterRateLimitState(pauseUntil, successCount)`, called in its
rehydration context (a freshly constructed engine, so no timer of this
engine is armed and no orphaned timeout of it is pending), enters
`rate_limited` with exactly the supplied deadline and counter, and any
timer callback that turns the status back to `running` can only fire at
or after `pauseUntil`, and then resets the counter to 0 and clears
`pauseUntil`. -/
theorem enter_rate_limit_spec (s : FollowQueue) (pu sc : Nat) (clk : Clock)
    (hrt : s.resumeTimer = none) (hdt : s.dailyLimitTimer = none)
    (horp : s.orphanedResume = []) (hord : s.orphanedDaily = []) :
    (s.enterRateLimitState pu sc clk).status = QueueStatus.rate_limited ∧
    (s.enterRateLimitState pu sc clk).pauseUntil = some pu ∧
    (s.enterRateLimitState pu sc clk).successSinceLastPause = sc ∧
    ∀ id clk2 s2,
      stepO (s.enterRateLimitState pu sc clk) (Event.timerFired id clk2) = some s2 →
        pu ≤ clk2.now ∧ s2.status = QueueStatus.running ∧
        s2.successSinceLastPause = 0 ∧ s2.pauseUntil = none := by
  simp only [FollowQueue.enterRateLimitState]
  split_ifs with hrem
  · refine ⟨rfl, rfl, rfl, ?_⟩
    intro id clk2 s2 hfire
    simp only [stepO, onTimerFired, runResumeRest] at hfire
    split_ifs at hfire with hid hat
    · simp only [Option.some.injEq] at hfire
      subst hfire
      refine ⟨by omega, rfl, rfl, rfl⟩
    · simp [fireOrphanResume, fireDailyTimer, fireOrphanDaily, orphaning,
        hrt, hdt, horp, hord] at hfire
  · refine ⟨rfl, rfl, rfl, ?_⟩
    intro id clk2 s2 hfire
    simp only [stepO, onTimerFired, hrt] at hfire
    simp [fireOrphanResume, fireDailyTimer, fireOrphanDaily, orphaning,
      hrt, hdt, horp, hord] at hfire

/-- Witness for C5 on a fresh default engine resuming a cooldown whose
deadline 500000 is still ahead of the clock (now = 1000). -/
theorem enter_rate_limit_spec_witness :
    (defaultEngine.enterRateLimitState 500000 3 clockDay1).status =
      QueueStatus.rate_limited ∧
    (defaultEngine.enterRateLimitState 500000 3 clockDay1).pauseUntil =
      some 500000 ∧
    (defaultEngine.enterRateLimitState 500000 3 clockDay1).successSinceLastPause =
      3 ∧
    ∀ id clk2 s2,
      stepO (defaultEngine.enterRateLimitState 500000 3 clockDay1)
          (Event.timerFired id clk2) = some s2 →
        500000 ≤ clk2.now ∧ s2.status = QueueStatus.running ∧
        s2.successSinceLastPause = 0 ∧ s2.pauseUntil = none :=
  enter_rate_limit_spec defaultEngine 500000 3 clockDay1 rfl rfl rfl rfl

/-- C3 as a concrete two-session evaluation (the failing input for the
recorded code bug): with `dailyFollowLimit = 1`, the first session
records one success for day one, reaches the daily limit and persists the
daily-limit record.  After a same-day reload the content script rebuilds
the engine but restores neither `todayFollowCount` nor the limited status,
so a second success is processed and the persisted today-count reaches 2,
exceeding the limit M = 1.  Within each single session, reaching the
limit does transition the status to `daily_limit_reached`. -/
theorem daily_limit_reload_overrun :
    (runO (initOnReload demoSettings emptyStore clockDay1) session1Events).map
        (fun s => (s.status, s.store)) =
      some (QueueStatus.daily_limit_reached, storeAfterSession1) ∧
    (runO (initOnReload demoSettings storeAfterSession1 clockDay1b)
        session2Events).map
        (fun s => (s.store.dailyStats.map (fun d => d.today.count),
          s.dailyLimit, s.status)) =
      some (some 2, 1, QueueStatus.daily_limit_reached) ∧
    demoSettings.dailyFollowLimit = 1 := by
  refine ⟨by decide, by decide, rfl⟩

/-- Helper: taking `n` of an append whose right part is already capped at
`n` equals taking `n` of the uncapped append. -/
theorem take_append_take {α : Type} (n : Nat) (a b : List α) :
    (a ++ b.take n).take n = (a ++ b).take n := by
  rw [List.take_append_eq_append_take, List.take_take,
    List.take_append_eq_append_take]
  rw [Nat.min_eq_left (Nat.sub_le n a.length)]

/-- Helper: re-capping after appending to an already-capped list equals
capping the uncapped append; this is the absorption law of `slice(-30)`
used by consecutive rollovers. -/
theorem rtake_absorb {α : Type} (n : Nat) (a b : List α) :
    ((a.rtake n) ++ b).rtake n = (a ++ b).rtake n := by
  simp only [List.rtake_eq_reverse_take_reverse, List.reverse_append,
    List.reverse_reverse]
  rw [take_append_take]

/-- Helper: the tail cap ignores a prefix when the suffix is long enough. -/
theorem rtake_append_right {α : Type} (n : Nat) (a b : List α)
    (h : n ≤ b.length) : (a ++ b).rtake n = b.rtake n := by
  simp only [List.rtake_eq_reverse_take_reverse, List.reverse_append]
  rw [List.take_append_of_le_length (by simpa using h)]

/-- Helper: length of the tail cap. -/
theorem length_rtake {α : Type} (n : Nat) (l : List α) :
    (l.rtake n).length = min n l.length := by
  simp only [List.rtake, List.length_drop]
  omega

/-- Helper: closed form of a sequence of day-boundary rollovers.  When
each date differs from the previous stored date, the final record is a
fresh zero count for the last date and the history is the 30-capped
append, in order, of the prior history, the initial today record and a
fresh zero-count record for every intermediate date. -/
theorem rollRun_closed (ds : List String) (init : DailyStatsHistory)
    (hchain : List.Chain' (fun a b => a ≠ b) (init.today.date :: ds))
    (hne : ds ≠ []) :
    ds.foldl rollStored init =
      { today := { date := ds.getLast hne, count := 0 },
        history := (init.history ++ init.today :: (ds.dropLast).map
          (fun d => { date := d, count := 0 })).rtake 30 } := by
  induction ds generalizing init with
  | nil => exact absurd rfl hne
  | cons d ds ih =>
    rw [List.chain'_cons] at hchain
    have hstep : rollStored init d =
        { today := { date := d, count := 0 },
          history := (init.history ++ [init.today]).rtake 30 } := by
      simp only [rollStored, getDailyStats]
      rw [if_neg hchain.1]
    cases ds with
    | nil => simp [hstep]
    | cons d2 ds2 =>
      rw [List.foldl_cons,
        ih (rollStored init d) (by simpa [hstep] using hchain.2) (by simp)]
      rw [hstep]
      simp only [List.getLast_cons_cons, List.dropLast_cons₂, List.map_cons]
      congr 1
      rw [rtake_absorb]
      simp

/-- C9: after more than 30 day-boundary rollovers the history has length
exactly 30, consists of exactly the most recent 30 rolled-over day
records in chronological order (the 30-cap of the rolled records, each a
fresh zero-count record for its date apart from the initial today), and
the current record is a fresh zero count for the last date. -/
theorem history_capped (init : DailyStatsHistory) (ds : List String)
    (hchain : List.Chain' (fun a b => a ≠ b) (init.today.date :: ds))
    (hlen : 30 < ds.length) :
    ((ds.foldl rollStored init).history.length = 30) ∧
    (ds.foldl rollStored init).history =
      (init.today :: (ds.dropLast).map
        (fun d => { date := d, count := 0 })).rtake 30 ∧
    ∃ hne : ds ≠ [],
      (ds.foldl rollStored init).today = { date := ds.getLast hne, count := 0 } := by
  have hne : ds ≠ [] := by
    intro h
    rw [h] at hlen
    simp at hlen
  rw [rollRun_closed ds init hchain hne]
  refine ⟨?_, ?_, ⟨hne, rfl⟩⟩
  · rw [length_rtake]
    simp only [List.length_append, List.length_cons, List.length_map,
      List.length_dropLast]
    omega
  · rw [rtake_append_right]
    simp only [List.length_cons, List.length_map, List.length_dropLast]
    omega

/-- Witness for C9: 31 rollovers from `statsStart` over pairwise distinct
dates. -/
theorem history_capped_witness :
    ((manyDates.foldl rollStored statsStart).history.length = 30) ∧
    (manyDates.foldl rollStored statsStart).history =
      (statsStart.today :: (manyDates.dropLast).map
        (fun d => { date := d, count := 0 })).rtake 30 ∧
    ∃ hne : manyDates ≠ [],
      (manyDates.foldl rollStored statsStart).today =
        { date := manyDates.getLast hne, count := 0 } :=
  history_capped statsStart manyDates
    ((by decide :
      (statsStart.today.date :: manyDates).Pairwise (fun a b => a ≠ b)).chain')
    (by decide)


/-- C1 failing-input evaluation (the recorded code bug): rehydrating a
pending cooldown arms the rehydration callback as timer id 0; one
threshold-crossing success makes the loop's cooldown branch overwrite
`this.resumeTimer` (followQueue.ts line 179) without `clearTimeout`,
orphaning timer id 0.  `stop()` then cancels only the handles it still
holds: immediately afterwards the status is `stopped`, the remaining
queue length is 0 and both handle variables are cleared, yet the
pre-stop timer id 0 is still scheduled, and when it fires at its deadline
its callback (lines 111-117) sets the status back to `running` —
contradicting the claim that no timer scheduled before `stop()` can fire
afterwards and flip the status back to `running`. -/
theorem stop_orphaned_timer_fires :
    (runO thresholdOneEngine (orphanTrace.take 5)).map
        (fun s => (s.status, s.getStats.remaining, s.resumeTimer,
          s.dailyLimitTimer, s.orphanedResume)) =
      some (QueueStatus.stopped, 0, none, none,
        [({ id := 0, fireAt := 700000 }, ResumeKind.rehydrate)]) ∧
    (runO thresholdOneEngine orphanTrace).map
        (fun s => (s.status, s.orphanedResume)) =
      some (QueueStatus.running, []) := by
  refine ⟨by rfl, by rfl⟩
